import Mathlib

/-!
Shallow embedding of the credential/session lifecycle manager of the
google-mcp repository (`src/auth/oauth.ts`, class `GoogleOAuth`), together
with proofs settling the frozen claims about it.

The session file holds a single flat JSON object (the serialized token
set); we model its parsed form as an association list of scalar JSON
values.  File contents are modelled as absent, corrupt (unparsable), or a
parsed value; remote exchanges (refresh, code-for-token) are modelled by
their outcome (`none` = the remote call throws / rejects).
-/

namespace GoogleMcp

/-- A scalar JSON value, as stored in a field of the session file. -/
inductive JsonVal where
  | null
  | num (n : Int)
  | str (s : String)
deriving Repr, DecidableEq

/-- A flat JSON object: the parsed form of the session (token) file. -/
abbrev JsonObj := List (String × JsonVal)

/-- Content of an on-disk file: missing, unparsable, or parsed to a value. -/
inductive FileContent (α : Type) where
  | absent
  | corrupt
  | valid (a : α)
deriving Repr, DecidableEq

/-- The token set (`Auth.Credentials`): every field is optional at runtime. -/
structure Credentials where
  access_token : Option String
  refresh_token : Option String
  expiry_date : Option Int
  token_type : Option String
  scope : Option String
deriving Repr, DecidableEq

/-- Model of `JSON.stringify(tokens)`: serialize a token set to a flat JSON object,
omitting absent fields (as stringify drops `undefined` properties). -/
def encodeCredentials (c : Credentials) : JsonObj :=
  (match c.access_token with | some s => [("access_token", JsonVal.str s)] | none => []) ++
  (match c.refresh_token with | some s => [("refresh_token", JsonVal.str s)] | none => []) ++
  (match c.expiry_date with | some n => [("expiry_date", JsonVal.num n)] | none => []) ++
  (match c.token_type with | some s => [("token_type", JsonVal.str s)] | none => []) ++
  (match c.scope with | some s => [("scope", JsonVal.str s)] | none => [])

/-- Read a string-valued field out of a parsed JSON object. -/
def getStrField (o : JsonObj) (k : String) : Option String :=
  match o.lookup k with
  | some (JsonVal.str s) => some s
  | _ => none

/-- Read a number-valued field out of a parsed JSON object. -/
def getNumField (o : JsonObj) (k : String) : Option Int :=
  match o.lookup k with
  | some (JsonVal.num n) => some n
  | _ => none

/-- Model of `JSON.parse(content) as Auth.Credentials`: the unvalidated cast exposes
whatever fields the parsed object happens to carry. -/
def readCredentials (o : JsonObj) : Credentials :=
  { access_token := getStrField o "access_token"
    refresh_token := getStrField o "refresh_token"
    expiry_date := getNumField o "expiry_date"
    token_type := getStrField o "token_type"
    scope := getStrField o "scope" }

/-- One `installed`/`web` section of the identity (credentials) file; the
runtime value is an unvalidated cast, so every field may be missing. -/
structure ClientKeys where
  client_id : Option String
  client_secret : Option String
  redirect_uris : Option (List String)
deriving Repr, DecidableEq

/-- The identity file's two accepted top-level shapes (`CredentialsFile`). -/
structure CredentialsFile where
  installed : Option ClientKeys
  web : Option ClientKeys
deriving Repr, DecidableEq

/-- The constructed OAuth2 client configuration
(`new google.auth.OAuth2(client_id, client_secret, redirect)`). -/
structure ClientConfig where
  clientId : String
  clientSecret : String
  redirectUri : String
deriving Repr, DecidableEq

/-- In-memory state of the `GoogleOAuth` instance: the OAuth2 client (if
constructed), the credentials currently set on it, and the readiness flag. -/
structure OAuthState where
  oauth2Client : Option ClientConfig
  clientCredentials : Option Credentials
  isAuthenticated : Bool
deriving Repr, DecidableEq

/-- The manager's state together with the one shared on-disk artifact it
writes: the session (token) file. -/
structure Sys where
  oauth : OAuthState
  tokenFile : FileContent JsonObj
deriving Repr, DecidableEq

/-- The external world an `initialize()` call observes: the identity file,
the current clock, and the remote token endpoint's answer to a refresh
(`none` models a rejected/failed refresh exchange). -/
structure Env where
  credFile : FileContent CredentialsFile
  now : Int
  refreshResult : Option Credentials
deriving Repr, DecidableEq

/-- Model of `loadCredentials()`: parse the identity file; missing file or parse
failure is caught and reported as `null`. -/
def loadCredentialsFile (f : FileContent CredentialsFile) : Option CredentialsFile :=
  match f with
  | .valid c => some c
  | _ => none

/-- Model of `loadTokens()`: parse the session file; missing file or parse failure
is caught and reported as `null`.  A parsed object is always truthy. -/
def loadTokens (f : FileContent JsonObj) : Option Credentials :=
  match f with
  | .valid o => some (readCredentials o)
  | _ => none

/-- Model of `saveTokens(tokens)`: overwrite the session file with the serialized
token set (`fs.writeFileSync(TOKEN_PATH, JSON.stringify(tokens), ...)`). -/
def saveTokensFile (t : Credentials) : FileContent JsonObj :=
  .valid (encodeCredentials t)

/-- Model of `credentials.installed || credentials.web || {}`: objects are truthy in
JS, so a present `installed` section wins even if internally empty. -/
def keySection (cf : CredentialsFile) : ClientKeys :=
  match cf.installed with
  | some k => k
  | none =>
    match cf.web with
    | some k => k
    | none => ⟨none, none, none⟩

/-- JS truthiness of an optional string (`!client_id`): missing and empty
strings are falsy. -/
def truthyStr (s : Option String) : Bool :=
  match s with
  | some v => !v.isEmpty
  | none => false

/-- The fixed local default redirect target baked into the source. -/
def defaultRedirectUri : String := "http://localhost:3000/oauth2callback"

/-- Model of `redirect_uris?.[0] || "http://localhost:3000/oauth2callback"`: the
first declared redirect target, or the fixed local default when the list is
missing, empty, or its head is the empty string. -/
def firstRedirectUri (uris : Option (List String)) : String :=
  match uris with
  | some (u :: _) => if u.isEmpty then defaultRedirectUri else u
  | _ => defaultRedirectUri

/-- Model of `tokens.expiry_date && tokens.expiry_date < Date.now()`: the refresh
guard.  A missing expiry, and also the (falsy) value `0`, skip the refresh. -/
def needsRefresh (t : Credentials) (now : Int) : Bool :=
  match t.expiry_date with
  | some e => e != 0 && e < now
  | none => false

/-- Outcome of an `initialize()` call: its boolean return, the resulting
state, the argument of any `saveTokens` call it made, and whether it opened
a browser or bound a listener (its body contains no such call). -/
structure InitResult where
  ret : Bool
  sys : Sys
  savedTokens : Option Credentials
  openedBrowser : Bool
  boundListener : Bool
deriving Repr, DecidableEq

/-- Model of `initialize()`: load identity (absent → false); construct the OAuth2
client from the first section's id/secret and first redirect target; load
the session file (absent/corrupt → false); refresh when the expiry guard
fires, persisting the refreshed tokens on success and returning false on a
rejected refresh; otherwise mark authenticated and return true. -/
def oauthInit (env : Env) (sys : Sys) : InitResult :=
  match loadCredentialsFile env.credFile with
  | none => ⟨false, sys, none, false, false⟩
  | some cf =>
    let keys := keySection cf
    if !truthyStr keys.client_id || !truthyStr keys.client_secret then
      ⟨false, sys, none, false, false⟩
    else
      let cfg : ClientConfig :=
        ⟨keys.client_id.getD "", keys.client_secret.getD "",
         firstRedirectUri keys.redirect_uris⟩
      let sys1 : Sys :=
        { sys with oauth := { sys.oauth with oauth2Client := some cfg, clientCredentials := none } }
      match loadTokens sys.tokenFile with
      | none => ⟨false, sys1, none, false, false⟩
      | some tokens =>
        let sys2 : Sys :=
          { sys1 with oauth := { sys1.oauth with clientCredentials := some tokens } }
        if needsRefresh tokens env.now then
          match env.refreshResult with
          | none => ⟨false, sys2, none, false, false⟩
          | some newTokens =>
            ⟨true,
             { sys2 with
                 oauth := { sys2.oauth with
                              clientCredentials := some newTokens, isAuthenticated := true }
                 tokenFile := saveTokensFile newTokens },
             some newTokens, false, false⟩
        else
          ⟨true,
           { sys2 with oauth := { sys2.oauth with isAuthenticated := true } },
           none, false, false⟩

/-- State of one interactive consent flow: the manager's state plus the
transient listener, the one-shot promise, the HTML responses sent so far,
and bookkeeping for close calls and requests arriving after the close. -/
structure FlowState where
  sys : Sys
  serverOpen : Bool
  boundPort : Option Nat
  closeCalls : Nat
  closeTransitions : Nat
  resolvedValue : Option Bool
  responses : List Nat
  openedBrowser : Bool
  rejectedRequests : Nat
deriving Repr, DecidableEq

/-- Model of `server.listen(3000, cb)` plus the browser launch inside `cb`:
the port is the literal `3000` from the source.  When the port is already
occupied (a prior flow's listener), the bind fails, the listening callback
never runs, and no browser is opened. -/
def startFlow (sys : Sys) (portBusy : Bool) : FlowState :=
  { sys := sys
    serverOpen := !portBusy
    boundPort := if portBusy then none else some 3000
    closeCalls := 0
    closeTransitions := 0
    resolvedValue := none
    responses := []
    openedBrowser := !portBusy
    rejectedRequests := 0 }

/-- Model of `server.close()`: every call is counted; the transition from
listening to closed happens only when the server was still open (closing an
already-closed server is a no-op on the resource). -/
def serverClose (st : FlowState) : FlowState :=
  { st with
      closeCalls := st.closeCalls + 1
      closeTransitions := st.closeTransitions + (if st.serverOpen then 1 else 0)
      serverOpen := false }

/-- Model of `resolve(b)` on the flow's promise: the first writer wins and
later resolutions are ignored. -/
def promiseResolve (st : FlowState) (b : Bool) : FlowState :=
  { st with
      resolvedValue :=
        match st.resolvedValue with
        | some v => some v
        | none => some b }

/-- An event observed while the flow is pending: an incoming HTTP request
(with its path, optional `code` query parameter, and the remote endpoint's
answer if that code were exchanged), or the 5-minute one-shot timer. -/
inductive FlowEvent where
  | request (path : String) (code : Option String) (exchangeResult : Option Credentials)
  | timerFire
deriving Repr, DecidableEq

/-- One step of the pending flow, translating the request handler and the
timer callback from `authenticate()`.  A request reaching a closed server
is not served.  A served request on the callback path: with a code whose
exchange succeeds → set credentials, save tokens, mark authenticated,
respond 200, close, resolve true; exchange throws → caught, respond 500,
close, resolve false; no code → respond 400, close, resolve false.  Any
other path falls through the handler: no response, no close.  The timer
closes and resolves false unless `isAuthenticated` was set. -/
def flowStep (st : FlowState) (e : FlowEvent) : FlowState :=
  match e with
  | .timerFire =>
    if st.sys.oauth.isAuthenticated then st
    else promiseResolve (serverClose st) false
  | .request path code exch =>
    if !st.serverOpen then
      { st with rejectedRequests := st.rejectedRequests + 1 }
    else if path == "/oauth2callback" then
      match code with
      | some _ =>
        match exch with
        | some tokens =>
          let st1 : FlowState :=
            { st with
                sys :=
                  { oauth :=
                      { st.sys.oauth with
                          clientCredentials := some tokens, isAuthenticated := true }
                    tokenFile := saveTokensFile tokens } }
          promiseResolve (serverClose { st1 with responses := st1.responses ++ [200] }) true
        | none =>
          promiseResolve (serverClose { st with responses := st.responses ++ [500] }) false
      | none =>
        promiseResolve (serverClose { st with responses := st.responses ++ [400] }) false
    else
      st

/-- Run a pending flow through a sequence of events. -/
def runFlow (st : FlowState) (es : List FlowEvent) : FlowState :=
  es.foldl flowStep st

/-- Result of an `authenticate()` call: either it returned before starting
a flow, or it left a pending flow in the given initial state. -/
inductive AuthOutcome where
  | immediate (ret : Bool) (sys : Sys)
  | flow (fs : FlowState)
deriving Repr, DecidableEq

/-- Model of `authenticate()`: when no OAuth2 client exists, re-enter
`initialize()` and give up only if it failed and still produced no client;
short-circuit true when already authenticated; otherwise start the
interactive flow (build URL, create server, listen on port 3000). -/
def authenticateCall (env : Env) (sys : Sys) (portBusy : Bool) : AuthOutcome :=
  let entry : Sys × Bool :=
    match sys.oauth.oauth2Client with
    | none =>
      let r := oauthInit env sys
      if !r.ret && r.sys.oauth.oauth2Client.isNone then (r.sys, false) else (r.sys, true)
    | some _ => (sys, true)
  if entry.2 = false then .immediate false entry.1
  else if entry.1.oauth.isAuthenticated then .immediate true entry.1
  else .flow (startFlow entry.1 portBusy)

/-- Result of a `setAuthCode(code)` call. -/
structure SetCodeResult where
  ret : Bool
  sys : Sys
deriving Repr, DecidableEq

/-- Model of `setAuthCode(code)`: when no OAuth2 client exists, run
`initialize()` first (its result is ignored); fail when there is still no
client; then exchange the code — a rejected exchange (`exch = none`) is
caught and reported as false, a successful one sets credentials, persists
the tokens, and marks the session authenticated. -/
def setAuthCode (env : Env) (sys : Sys) (exch : Option Credentials) : SetCodeResult :=
  let sys1 : Sys :=
    match sys.oauth.oauth2Client with
    | none => (oauthInit env sys).sys
    | some _ => sys
  match sys1.oauth.oauth2Client with
  | none => ⟨false, sys1⟩
  | some _ =>
    match exch with
    | some tokens =>
      ⟨true,
       { sys1 with
           oauth :=
             { sys1.oauth with clientCredentials := some tokens, isAuthenticated := true }
           tokenFile := saveTokensFile tokens }⟩
    | none => ⟨false, sys1⟩

/-- Decimal value of a digit run. -/
def digitsToNat (ds : List Char) : Nat :=
  ds.foldl (fun n c => n * 10 + (c.toNat - 48)) 0

/-- The first digit run directly following a colon, if any. -/
def portOfChars : List Char → Option Nat
  | [] => none
  | ':' :: rest =>
    let ds := rest.takeWhile Char.isDigit
    if ds.isEmpty then portOfChars rest
    else some (digitsToNat ds)
  | _ :: rest => portOfChars rest

/-- Spec-side definition (from the claim's words, not from the source): the
port embedded in a redirect target such as `http://localhost:8080/cb`. -/
def portOfRedirect (s : String) : Option Nat :=
  portOfChars s.toList

/-- Spec-side helper: the HTTP status the handler answers on the callback
path for a given code / exchange outcome. -/
def callbackStatus (code : Option String) (exch : Option Credentials) : Nat :=
  match code with
  | none => 400
  | some _ =>
    match exch with
    | some _ => 200
    | none => 500

/-! Concrete fixtures shared by witnesses and counterexamples. -/

/-- A fully populated identity-file section. -/
def sampleKeys : ClientKeys :=
  ⟨some "id-1", some "secret-1", some ["http://localhost:3000/oauth2callback"]⟩

/-- An identity file with an `installed` section. -/
def sampleIdentity : CredentialsFile := ⟨some sampleKeys, none⟩

/-- A persisted token set whose expiry (100) is in the past at clock 1000. -/
def expiredTokens : Credentials :=
  ⟨some "acc-old", some "ref-old", some 100, some "Bearer", some "scope-a"⟩

/-- The token set the remote endpoint answers a successful exchange with. -/
def freshTokens : Credentials :=
  ⟨some "acc-new", some "ref-new", some 99999, some "Bearer", some "scope-a"⟩

/-- A world with a valid identity file, clock 1000, and a working refresh. -/
def sampleEnv : Env := ⟨.valid sampleIdentity, 1000, some freshTokens⟩

/-- A fresh manager state over a session file holding `expiredTokens`. -/
def sampleSys : Sys := ⟨⟨none, none, false⟩, saveTokensFile expiredTokens⟩

/-- A world with a valid identity file, clock 1000, and a refresh exchange
that the remote endpoint rejects. -/
def failEnv : Env := ⟨.valid sampleIdentity, 1000, none⟩

/-- A manager state whose OAuth2 client is constructed but that is not yet
authenticated, over an empty data directory. -/
def clientSys : Sys :=
  ⟨⟨some ⟨"id-1", "secret-1", defaultRedirectUri⟩, none, false⟩, .absent⟩

/-- A manager state holding an active (authenticated) session. -/
def activeSys : Sys :=
  ⟨⟨some ⟨"id-1", "secret-1", defaultRedirectUri⟩, some freshTokens, true⟩,
   saveTokensFile freshTokens⟩

/-! The claims. -/

/-- Claim C10: saving any SessionState with `saveTokens` and immediately
loading it with `loadTokens` yields field-for-field equal data. -/
theorem claim_C10_round_trip (t : Credentials) :
    loadTokens (saveTokensFile t) = some t := by
  obtain ⟨a, r, e, k, s⟩ := t
  cases a <;> cases r <;> cases e <;> cases k <;> cases s <;> rfl

/-- Claim C2 (amended): for a persisted SessionState whose expiry instant is
in the past and nonzero and whose refresh credential the remote endpoint
accepts, `initialize()` persists the refreshed SessionState, returns true,
marks the session authenticated, and neither opens a browser nor binds a
listener. -/
theorem claim_C2_refresh_silently (env : Env) (sys : Sys) (cf : CredentialsFile)
    (t newT : Credentials) (e : Int)
    (hcf : env.credFile = .valid cf)
    (hid : truthyStr (keySection cf).client_id = true)
    (hsec : truthyStr (keySection cf).client_secret = true)
    (htok : loadTokens sys.tokenFile = some t)
    (hexp : t.expiry_date = some e)
    (hnz : e ≠ 0)
    (hlt : e < env.now)
    (href : env.refreshResult = some newT) :
    (oauthInit env sys).ret = true ∧
    (oauthInit env sys).savedTokens = some newT ∧
    (oauthInit env sys).sys.tokenFile = saveTokensFile newT ∧
    (oauthInit env sys).sys.oauth.isAuthenticated = true ∧
    (oauthInit env sys).openedBrowser = false ∧
    (oauthInit env sys).boundListener = false := by
  simp only [oauthInit, hcf, loadCredentialsFile, hid, hsec, htok, Bool.not_true,
    Bool.or_self, Bool.false_eq_true, if_false, needsRefresh, hexp, href]
  simp [hnz, hlt]

/-- Claim C2, witness for the amended theorem at a concrete input. -/
theorem claim_C2_witness :
    (oauthInit sampleEnv sampleSys).ret = true ∧
    (oauthInit sampleEnv sampleSys).savedTokens = some freshTokens ∧
    (oauthInit sampleEnv sampleSys).sys.tokenFile = saveTokensFile freshTokens ∧
    (oauthInit sampleEnv sampleSys).sys.oauth.isAuthenticated = true ∧
    (oauthInit sampleEnv sampleSys).openedBrowser = false ∧
    (oauthInit sampleEnv sampleSys).boundListener = false :=
  claim_C2_refresh_silently sampleEnv sampleSys sampleIdentity expiredTokens
    freshTokens 100 (by decide) (by decide) (by decide) (by decide) (by decide)
    (by decide) (by decide) (by decide)

/-- Claim C2, counterexample to the claim as stated: a session whose stored
expiry is the epoch instant 0 — in the past at clock 1000 — with a working
refresh credential still makes `initialize()` return true, but nothing is
persisted: the refresh is skipped because `0` is falsy in the guard
`tokens.expiry_date && tokens.expiry_date < Date.now()`. -/
theorem claim_C2_counterexample :
    (0 : Int) < sampleEnv.now ∧
    (loadTokens (saveTokensFile ⟨some "a", some "r", some 0, none, none⟩)).map
        Credentials.expiry_date = some (some 0) ∧
    (oauthInit sampleEnv ⟨⟨none, none, false⟩,
        saveTokensFile ⟨some "a", some "r", some 0, none, none⟩⟩).ret = true ∧
    (oauthInit sampleEnv ⟨⟨none, none, false⟩,
        saveTokensFile ⟨some "a", some "r", some 0, none, none⟩⟩).savedTokens = none ∧
    (oauthInit sampleEnv ⟨⟨none, none, false⟩,
        saveTokensFile ⟨some "a", some "r", some 0, none, none⟩⟩).sys.tokenFile =
      saveTokensFile ⟨some "a", some "r", some 0, none, none⟩ := by
  decide

/-- Claim C5: when the refresh exchange inside `initialize()` is rejected,
the call returns false (the exception is caught, not propagated), readiness
stays false, the session file is untouched, and the manager holds exactly
the previously persisted complete token set — nothing from the failed
exchange. -/
theorem claim_C5_refresh_failure (env : Env) (sys : Sys) (cf : CredentialsFile)
    (t : Credentials)
    (hcf : env.credFile = .valid cf)
    (hid : truthyStr (keySection cf).client_id = true)
    (hsec : truthyStr (keySection cf).client_secret = true)
    (htok : loadTokens sys.tokenFile = some t)
    (hexp : needsRefresh t env.now = true)
    (hfail : env.refreshResult = none)
    (hauth : sys.oauth.isAuthenticated = false) :
    (oauthInit env sys).ret = false ∧
    (oauthInit env sys).sys.oauth.isAuthenticated = false ∧
    (oauthInit env sys).sys.tokenFile = sys.tokenFile ∧
    (oauthInit env sys).savedTokens = none ∧
    (oauthInit env sys).sys.oauth.clientCredentials = some t := by
  simp [oauthInit, hcf, loadCredentialsFile, hid, hsec, htok, hexp, hfail, hauth]

/-- Claim C5, witness at a concrete input. -/
theorem claim_C5_witness :
    (oauthInit failEnv sampleSys).ret = false ∧
    (oauthInit failEnv sampleSys).sys.oauth.isAuthenticated = false ∧
    (oauthInit failEnv sampleSys).sys.tokenFile = sampleSys.tokenFile ∧
    (oauthInit failEnv sampleSys).savedTokens = none ∧
    (oauthInit failEnv sampleSys).sys.oauth.clientCredentials = some expiredTokens :=
  claim_C5_refresh_failure failEnv sampleSys sampleIdentity expiredTokens
    (by decide) (by decide) (by decide) (by decide) (by decide) (by decide) (by decide)

/-- Claim C4: an unparsable session file makes `initialize()` return false
(without throwing: the model is a total function), behaves exactly like an
absent file, and a subsequent `authenticate()` flow can still succeed and
overwrite the corrupt file with the freshly exchanged tokens. -/
theorem claim_C4_corrupt_tolerance (env : Env) (sys : Sys) (cf : CredentialsFile)
    (c : String) (t : Credentials)
    (hcf : env.credFile = .valid cf)
    (hid : truthyStr (keySection cf).client_id = true)
    (hsec : truthyStr (keySection cf).client_secret = true)
    (hcorrupt : sys.tokenFile = .corrupt)
    (hauth : sys.oauth.isAuthenticated = false) :
    (∀ (env2 : Env) (sys2 : Sys), sys2.tokenFile = FileContent.corrupt →
       (oauthInit env2 sys2).ret = false ∧
       (oauthInit env2 sys2).ret =
         (oauthInit env2 { sys2 with tokenFile := .absent }).ret ∧
       (oauthInit env2 sys2).sys.oauth =
         (oauthInit env2 { sys2 with tokenFile := .absent }).sys.oauth) ∧
    (authenticateCall env (oauthInit env sys).sys false =
       .flow (startFlow (oauthInit env sys).sys false) ∧
     (runFlow (startFlow (oauthInit env sys).sys false)
        [.request "/oauth2callback" (some c) (some t)]).resolvedValue = some true ∧
     (runFlow (startFlow (oauthInit env sys).sys false)
        [.request "/oauth2callback" (some c) (some t)]).sys.tokenFile =
       saveTokensFile t) := by
  constructor
  · intro env2 sys2 hc2
    unfold oauthInit
    cases hl : loadCredentialsFile env2.credFile with
    | none => simp
    | some cf2 =>
      by_cases hids :
          (!truthyStr (keySection cf2).client_id ||
           !truthyStr (keySection cf2).client_secret) = true
      · simp [hids]
      · simp [hids, hc2, loadTokens]
  · constructor
    · simp [oauthInit, hcf, loadCredentialsFile, hid, hsec, hcorrupt, loadTokens,
        authenticateCall, hauth]
    · constructor <;>
        simp [oauthInit, hcf, loadCredentialsFile, hid, hsec, hcorrupt, loadTokens,
          runFlow, startFlow, flowStep, serverClose, promiseResolve]

/-- Claim C4, witness at a concrete input. -/
theorem claim_C4_witness :
    (oauthInit failEnv ⟨⟨none, none, false⟩, .corrupt⟩).ret = false ∧
    authenticateCall failEnv (oauthInit failEnv ⟨⟨none, none, false⟩, .corrupt⟩).sys false =
      .flow (startFlow (oauthInit failEnv ⟨⟨none, none, false⟩, .corrupt⟩).sys false) ∧
    (runFlow (startFlow (oauthInit failEnv ⟨⟨none, none, false⟩, .corrupt⟩).sys false)
       [.request "/oauth2callback" (some "code-abc") (some freshTokens)]).resolvedValue =
      some true ∧
    (runFlow (startFlow (oauthInit failEnv ⟨⟨none, none, false⟩, .corrupt⟩).sys false)
       [.request "/oauth2callback" (some "code-abc") (some freshTokens)]).sys.tokenFile =
      saveTokensFile freshTokens := by
  have h := claim_C4_corrupt_tolerance failEnv ⟨⟨none, none, false⟩, .corrupt⟩
    sampleIdentity "code-abc" freshTokens (by decide) (by decide) (by decide)
    (by decide) (by decide)
  exact ⟨(h.1 failEnv ⟨⟨none, none, false⟩, .corrupt⟩ (by decide)).1, h.2.1, h.2.2.1, h.2.2.2⟩

/-- Claim C1: on each completion path of the consent flow — valid code,
redirect without a code, the 5-minute timeout, and an exception while
handling the callback — the listener transitions from listening to closed
exactly once (a later timer fire never re-closes it), the flow resolves,
and a request arriving after the close is not served: it changes nothing
but the rejected-connection count. -/
theorem claim_C1_listener_closes_once (sys : Sys) (c : String) (t : Credentials)
    (hauth : sys.oauth.isAuthenticated = false) :
    ((runFlow (startFlow sys false)
        [.request "/oauth2callback" (some c) (some t), .timerFire]).closeTransitions = 1 ∧
     (runFlow (startFlow sys false)
        [.request "/oauth2callback" (some c) (some t), .timerFire]).resolvedValue = some true ∧
     (runFlow (startFlow sys false)
        [.request "/oauth2callback" none none, .timerFire]).closeTransitions = 1 ∧
     (runFlow (startFlow sys false)
        [.request "/oauth2callback" none none, .timerFire]).resolvedValue = some false ∧
     (runFlow (startFlow sys false) [.timerFire]).closeTransitions = 1 ∧
     (runFlow (startFlow sys false) [.timerFire]).resolvedValue = some false ∧
     (runFlow (startFlow sys false)
        [.request "/oauth2callback" (some c) none, .timerFire]).closeTransitions = 1 ∧
     (runFlow (startFlow sys false)
        [.request "/oauth2callback" (some c) none, .timerFire]).resolvedValue = some false) ∧
    (∀ (st : FlowState) (p : String) (cd : Option String) (ex : Option Credentials),
       st.serverOpen = false →
       flowStep st (.request p cd ex) =
         { st with rejectedRequests := st.rejectedRequests + 1 }) := by
  constructor
  · simp [runFlow, startFlow, flowStep, serverClose, promiseResolve, hauth]
  · intro st p cd ex hclosed
    simp [flowStep, hclosed]

/-- Claim C1, witness at a concrete input. -/
theorem claim_C1_witness :
    (runFlow (startFlow sampleSys false)
       [.request "/oauth2callback" (some "code-abc") (some freshTokens),
        .timerFire]).closeTransitions = 1 ∧
    (runFlow (startFlow sampleSys false)
       [.request "/oauth2callback" (some "code-abc") (some freshTokens),
        .timerFire]).resolvedValue = some true ∧
    (runFlow (startFlow sampleSys false)
       [.request "/oauth2callback" none none, .timerFire]).closeTransitions = 1 ∧
    (runFlow (startFlow sampleSys false)
       [.request "/oauth2callback" none none, .timerFire]).resolvedValue = some false ∧
    (runFlow (startFlow sampleSys false) [.timerFire]).closeTransitions = 1 ∧
    (runFlow (startFlow sampleSys false) [.timerFire]).resolvedValue = some false ∧
    (runFlow (startFlow sampleSys false)
       [.request "/oauth2callback" (some "code-abc") none, .timerFire]).closeTransitions = 1 ∧
    (runFlow (startFlow sampleSys false)
       [.request "/oauth2callback" (some "code-abc") none, .timerFire]).resolvedValue =
      some false :=
  (claim_C1_listener_closes_once sampleSys "code-abc" freshTokens (by decide)).1

/-- Claim C3: a second `authenticate()` while a prior flow is pending (the
prior listener still holds port 3000, readiness still false) fails to bind
a second listener — the bind on the occupied port fails, so the listening
callback never runs and no second browser tab is opened; and whenever the
session is already active, `authenticate()` short-circuits to true without
starting any flow. -/
theorem claim_C3_single_flow (env : Env) (sys : Sys) (cfg : ClientConfig)
    (hclient : sys.oauth.oauth2Client = some cfg) :
    (sys.oauth.isAuthenticated = false →
       authenticateCall env sys true = .flow (startFlow sys true) ∧
       (startFlow sys true).serverOpen = false ∧
       (startFlow sys true).boundPort = none ∧
       (startFlow sys true).openedBrowser = false) ∧
    (sys.oauth.isAuthenticated = true →
       ∀ portBusy : Bool, authenticateCall env sys portBusy = .immediate true sys) := by
  constructor
  · intro hnot
    refine ⟨?_, by simp [startFlow], by simp [startFlow], by simp [startFlow]⟩
    simp [authenticateCall, hclient, hnot]
  · intro hact portBusy
    simp [authenticateCall, hclient, hact]

/-- Claim C3, witness at concrete inputs: a pending-flow re-entry and an
already-active short-circuit. -/
theorem claim_C3_witness :
    (authenticateCall sampleEnv clientSys true = .flow (startFlow clientSys true) ∧
     (startFlow clientSys true).serverOpen = false ∧
     (startFlow clientSys true).boundPort = none ∧
     (startFlow clientSys true).openedBrowser = false) ∧
    authenticateCall sampleEnv activeSys false = .immediate true activeSys :=
  ⟨(claim_C3_single_flow sampleEnv clientSys ⟨"id-1", "secret-1", defaultRedirectUri⟩
      (by decide)).1 (by decide),
   (claim_C3_single_flow sampleEnv activeSys ⟨"id-1", "secret-1", defaultRedirectUri⟩
      (by decide)).2 (by decide) false⟩

/-- Claim C6 (amended): a rejected code exchange makes `setAuthCode` return
false (the failure is caught, never thrown past the boundary), and when the
OAuth2 client was already constructed the session file is neither written
nor altered.  (When the client was not yet constructed, the internal
`initialize()` call may itself refresh and rewrite the session file before
the exchange is attempted.) -/
theorem claim_C6_failed_exchange (env : Env) (sys : Sys) :
    (setAuthCode env sys none).ret = false ∧
    (sys.oauth.oauth2Client.isSome = true →
       (setAuthCode env sys none).sys.tokenFile = sys.tokenFile) := by
  unfold setAuthCode
  cases hc : sys.oauth.oauth2Client with
  | some cfg => simp [hc]
  | none =>
    simp only [hc, Option.isSome_none, Bool.false_eq_true, false_implies, and_true]
    cases h2 : (oauthInit env sys).sys.oauth.oauth2Client <;> simp [h2]

/-- Claim C6, witness at a concrete input (client already constructed). -/
theorem claim_C6_witness :
    (setAuthCode sampleEnv clientSys none).ret = false ∧
    (setAuthCode sampleEnv clientSys none).sys.tokenFile = clientSys.tokenFile :=
  ⟨(claim_C6_failed_exchange sampleEnv clientSys).1,
   (claim_C6_failed_exchange sampleEnv clientSys).2 (by decide)⟩

/-- Claim C6, counterexample to the claim as stated: with no client yet
constructed and an expired-but-refreshable session on disk, the failed
`setAuthCode` call still returns false, but the session file HAS been
altered — the internal `initialize()` refreshed and rewrote it before the
exchange failed. -/
theorem claim_C6_counterexample :
    (setAuthCode sampleEnv sampleSys none).ret = false ∧
    (setAuthCode sampleEnv sampleSys none).sys.tokenFile ≠ sampleSys.tokenFile ∧
    (setAuthCode sampleEnv sampleSys none).sys.tokenFile = saveTokensFile freshTokens := by
  decide

/-- Claim C7 (amended): a request to `/oauth2callback` received while the
listener is open is answered with exactly one self-contained HTML page (200
on a successful exchange, 400 with no code, 500 on an exchange error) and
the listener closes after handling it; a request to ANY OTHER path falls
through the handler — no response is sent and the listener stays open. -/
theorem claim_C7_callback_only (st : FlowState) (cd : Option String)
    (ex : Option Credentials)
    (hopen : st.serverOpen = true) :
    ((flowStep st (.request "/oauth2callback" cd ex)).responses =
       st.responses ++ [callbackStatus cd ex] ∧
     (flowStep st (.request "/oauth2callback" cd ex)).serverOpen = false ∧
     (flowStep st (.request "/oauth2callback" cd ex)).closeTransitions =
       st.closeTransitions + 1) ∧
    (∀ p : String, p ≠ "/oauth2callback" → flowStep st (.request p cd ex) = st) := by
  constructor
  · cases cd <;> cases ex <;>
      simp [flowStep, hopen, serverClose, promiseResolve, callbackStatus]
  · intro p hp
    simp [flowStep, hopen, hp]

/-- Claim C7, witness at a concrete input. -/
theorem claim_C7_witness :
    (flowStep (startFlow clientSys false)
       (.request "/oauth2callback" (some "code-abc") (some freshTokens))).responses =
      (startFlow clientSys false).responses ++ [200] ∧
    (flowStep (startFlow clientSys false)
       (.request "/oauth2callback" (some "code-abc") (some freshTokens))).serverOpen = false :=
  ⟨((claim_C7_callback_only (startFlow clientSys false) (some "code-abc")
       (some freshTokens) (by decide)).1).1,
   ((claim_C7_callback_only (startFlow clientSys false) (some "code-abc")
       (some freshTokens) (by decide)).1).2.1⟩

/-- Claim C7, counterexample to the claim as stated: a request to path `/`
is not answered at all — no page is sent, the listener does not close, and
the whole flow state is unchanged. -/
theorem claim_C7_counterexample :
    flowStep (startFlow clientSys false) (.request "/" none none) =
      startFlow clientSys false ∧
    (flowStep (startFlow clientSys false) (.request "/" none none)).responses = [] ∧
    (flowStep (startFlow clientSys false) (.request "/" none none)).serverOpen = true ∧
    (flowStep (startFlow clientSys false) (.request "/" none none)).closeCalls = 0 := by
  decide

/-- Claim C8 (amended): whenever `authenticate()` starts its flow, the
listener is bound on the fixed literal port 3000, independent of the port
embedded in the configured redirect target. -/
theorem claim_C8_fixed_port (env : Env) (sys : Sys) (cfg : ClientConfig)
    (hclient : sys.oauth.oauth2Client = some cfg)
    (hnot : sys.oauth.isAuthenticated = false) :
    authenticateCall env sys false = .flow (startFlow sys false) ∧
    (startFlow sys false).boundPort = some 3000 := by
  constructor
  · simp [authenticateCall, hclient, hnot]
  · simp [startFlow]

/-- Claim C8, witness: even with a configured redirect target on port 8080
the flow binds port 3000. -/
theorem claim_C8_witness :
    authenticateCall sampleEnv
        ⟨⟨some ⟨"id-1", "secret-1", "http://localhost:8080/oauth2callback"⟩, none, false⟩,
         .absent⟩ false =
      .flow (startFlow
        ⟨⟨some ⟨"id-1", "secret-1", "http://localhost:8080/oauth2callback"⟩, none, false⟩,
         .absent⟩ false) ∧
    (startFlow
        ⟨⟨some ⟨"id-1", "secret-1", "http://localhost:8080/oauth2callback"⟩, none, false⟩,
         .absent⟩ false).boundPort = some 3000 :=
  claim_C8_fixed_port sampleEnv
    ⟨⟨some ⟨"id-1", "secret-1", "http://localhost:8080/oauth2callback"⟩, none, false⟩,
     .absent⟩
    ⟨"id-1", "secret-1", "http://localhost:8080/oauth2callback"⟩ (by decide) (by decide)

/-- Claim C8, counterexample to the claim as stated: an identity file whose
redirect target embeds port 8080 still produces a listener bound on port
3000 — the source hardcodes `server.listen(3000, ...)`. -/
theorem claim_C8_counterexample :
    (oauthInit ⟨.valid ⟨some ⟨some "id-1", some "secret-1",
          some ["http://localhost:8080/oauth2callback"]⟩, none⟩, 1000, none⟩
        ⟨⟨none, none, false⟩, .absent⟩).sys.oauth.oauth2Client =
      some ⟨"id-1", "secret-1", "http://localhost:8080/oauth2callback"⟩ ∧
    portOfRedirect "http://localhost:8080/oauth2callback" = some 8080 ∧
    (startFlow (oauthInit ⟨.valid ⟨some ⟨some "id-1", some "secret-1",
          some ["http://localhost:8080/oauth2callback"]⟩, none⟩, 1000, none⟩
        ⟨⟨none, none, false⟩, .absent⟩).sys false).boundPort = some 3000 ∧
    (startFlow (oauthInit ⟨.valid ⟨some ⟨some "id-1", some "secret-1",
          some ["http://localhost:8080/oauth2callback"]⟩, none⟩, 1000, none⟩
        ⟨⟨none, none, false⟩, .absent⟩).sys false).boundPort ≠
      portOfRedirect "http://localhost:8080/oauth2callback" := by
  decide

/-- Claim C9 (amended): an identity file missing the client identifier or
the client secret is treated as absent — `initialize()` returns false with
the state untouched and no session operation attempted; but a missing
redirect-target list is NOT treated as absent: the OAuth2 client is
constructed with the fixed local default redirect and session operations
proceed. -/
theorem claim_C9_partial_identity (env : Env) (sys : Sys) (cf : CredentialsFile)
    (hcf : env.credFile = .valid cf)
    (h : truthyStr (keySection cf).client_id = false ∨
         truthyStr (keySection cf).client_secret = false) :
    ((oauthInit env sys).ret = false ∧
     (oauthInit env sys).sys = sys ∧
     (oauthInit env sys).savedTokens = none) ∧
    (∀ (env2 : Env) (sys2 : Sys) (cf2 : CredentialsFile),
       env2.credFile = .valid cf2 →
       truthyStr (keySection cf2).client_id = true →
       truthyStr (keySection cf2).client_secret = true →
       ((keySection cf2).redirect_uris = none ∨ (keySection cf2).redirect_uris = some []) →
       (oauthInit env2 sys2).sys.oauth.oauth2Client =
         some ⟨(keySection cf2).client_id.getD "", (keySection cf2).client_secret.getD "",
               defaultRedirectUri⟩) := by
  constructor
  · rcases h with h1 | h1 <;> simp [oauthInit, hcf, loadCredentialsFile, h1]
  · intro env2 sys2 cf2 hcf2 hid2 hsec2 hred2
    have hfirst : firstRedirectUri (keySection cf2).redirect_uris = defaultRedirectUri := by
      rcases hred2 with h2 | h2 <;> simp [firstRedirectUri, h2]
    unfold oauthInit
    simp only [hcf2, loadCredentialsFile, hid2, hsec2, Bool.not_true, Bool.or_self, hfirst]
    cases hlt : loadTokens sys2.tokenFile with
    | none => simp
    | some tokens =>
      by_cases hnr : needsRefresh tokens env2.now = true
      · cases hrr : env2.refreshResult with
        | none => simp [hnr, hrr]
        | some newTokens => simp [hnr, hrr]
      · simp [hnr]

/-- Claim C9, witness at concrete inputs: an identity with no client secret
is treated as absent; one missing only the redirect list gets the default
redirect. -/
theorem claim_C9_witness :
    ((oauthInit ⟨.valid ⟨some ⟨some "id-1", none, some [defaultRedirectUri]⟩, none⟩,
         1000, none⟩ clientSys).ret = false ∧
     (oauthInit ⟨.valid ⟨some ⟨some "id-1", none, some [defaultRedirectUri]⟩, none⟩,
         1000, none⟩ clientSys).sys = clientSys ∧
     (oauthInit ⟨.valid ⟨some ⟨some "id-1", none, some [defaultRedirectUri]⟩, none⟩,
         1000, none⟩ clientSys).savedTokens = none) ∧
    (oauthInit ⟨.valid ⟨some ⟨some "id-1", some "secret-1", some []⟩, none⟩, 1000, none⟩
        ⟨⟨none, none, false⟩, .absent⟩).sys.oauth.oauth2Client =
      some ⟨"id-1", "secret-1", defaultRedirectUri⟩ := by
  have h := claim_C9_partial_identity
    ⟨.valid ⟨some ⟨some "id-1", none, some [defaultRedirectUri]⟩, none⟩, 1000, none⟩
    clientSys ⟨some ⟨some "id-1", none, some [defaultRedirectUri]⟩, none⟩
    (by decide) (Or.inr (by decide))
  exact ⟨h.1,
    h.2 ⟨.valid ⟨some ⟨some "id-1", some "secret-1", some []⟩, none⟩, 1000, none⟩
      ⟨⟨none, none, false⟩, .absent⟩ ⟨some ⟨some "id-1", some "secret-1", some []⟩, none⟩
      (by decide) (by decide) (by decide) (Or.inr (by decide))⟩

/-- Claim C9, counterexample to the claim as stated: an identity file with
id and secret but an EMPTY redirect-target list is not treated as absent —
with an unexpired session on disk, `initialize()` proceeds through session
operations and returns true. -/
theorem claim_C9_counterexample :
    (keySection ⟨some ⟨some "id-1", some "secret-1", some []⟩, none⟩).redirect_uris =
      some [] ∧
    (oauthInit ⟨.valid ⟨some ⟨some "id-1", some "secret-1", some []⟩, none⟩, 1000, none⟩
        ⟨⟨none, none, false⟩, saveTokensFile freshTokens⟩).ret = true ∧
    (oauthInit ⟨.valid ⟨some ⟨some "id-1", some "secret-1", some []⟩, none⟩, 1000, none⟩
        ⟨⟨none, none, false⟩, saveTokensFile freshTokens⟩).sys.oauth.isAuthenticated =
      true := by
  decide

end GoogleMcp
